import Mathlib

/-!
Verification development for the x402-mcp server (`x402_mcp/app.py`).

The source is a Python MCP server exposing two tools: `discovery_resource`
(catalog query with client-side asset/price filtering) and `call_service`
(payment-aware HTTP call).  This file shallowly embeds the code paths the
specification talks about:

* `pyInt` models Python's `int(str)` parser (ASCII fragment: surrounding
  ASCII whitespace, an optional sign, decimal digits with single
  underscores between digits; Python additionally accepts some non-ASCII
  whitespace and digits, which no claim here exercises).
* `validate_max_amount_required` / `mk_payment_requirements` embed the
  pydantic `_PaymentRequirements` model and its field validator
  (app.py lines 31-58).
* `discovery_resource_filter` embeds the client-side post-filter of
  `discovery_resource` (app.py lines 166-180); a `none` result models the
  loop raising `ValueError` (from `int` applied to a non-parseable
  `max_amount_required`).
* `custom_payment_selector` embeds the selector wrapper defined inside
  `call_service` (app.py lines 214-231); the library default selector it
  delegates to lives in the external x402 package and is modelled from the
  spec.
* `call_service` embeds the tool body (app.py lines 184-274) with the
  external collaborators (key derivation, HTTP transport, receipt decoding)
  passed in as parameters; the second component of the result counts how
  many times the HTTP transport was engaged.
-/

/-! ## Python `int(str)` (ASCII fragment) -/

/-- ASCII whitespace characters stripped by Python's `int(str)`. -/
def isPyWs (c : Char) : Bool :=
  c = ' ' || c = '\t' || c = '\n' || c = '\r' || c = '\x0b' || c = '\x0c'

/-- Strip leading and trailing whitespace from a character list. -/
def stripWs (l : List Char) : List Char :=
  ((l.dropWhile isPyWs).reverse.dropWhile isPyWs).reverse

/-- Parse the remaining digits of a decimal literal, allowing a single
underscore between two digits, accumulating into `acc`. -/
def digitsCore (acc : Nat) : List Char → Option Nat
  | [] => some acc
  | c :: rest =>
    if c.isDigit then digitsCore (10 * acc + (c.toNat - 48)) rest
    else if c = '_' then
      match rest with
      | d :: rest' =>
        if d.isDigit then digitsCore (10 * acc + (d.toNat - 48)) rest'
        else none
      | [] => none
    else none

/-- Parse a nonempty run of decimal digits (with single underscores between
digits) to its value; `none` when the list is not of that shape. -/
def digitsVal : List Char → Option Nat
  | [] => none
  | c :: rest => if c.isDigit then digitsCore (c.toNat - 48) rest else none

/-- Parse a whitespace-stripped character list as Python's `int` does: an
optional sign followed by a nonempty digit run. -/
def pyIntCore : List Char → Option Int
  | [] => none
  | c :: rest =>
    if c = '+' then (digitsVal rest).map Int.ofNat
    else if c = '-' then (digitsVal rest).map (fun n => -(n : Int))
    else (digitsVal (c :: rest)).map Int.ofNat

/-- Model of Python's `int : str -> int`: `none` models `int` raising
`ValueError`. -/
def pyInt (s : String) : Option Int :=
  pyIntCore (stripWs s.toList)

/-- Value of a list of decimal digits. -/
def decimalOfDigits (l : List Char) : Nat :=
  l.foldl (fun acc c => 10 * acc + (c.toNat - 48)) 0

/-! ## Payment requirement model (app.py lines 31-58) -/

/-- Embedding of the pydantic `_PaymentRequirements` model.  `network` is a
`SupportedNetworks` string enum in the source; `output_schema` and `extra`
hold arbitrary JSON and are modelled opaquely since no claim inspects
them. -/
structure PaymentRequirements where
  scheme : String
  network : String
  max_amount_required : String
  resource : String
  description : String
  mime_type : String
  output_schema : Option String := none
  pay_to : String
  max_timeout_seconds : Int
  asset : String
  extra : Option String := none
deriving Repr, DecidableEq

/-- Embedding of the `validate_max_amount_required` field validator
(app.py lines 50-58): evaluate `0 if len(v) == 0 else int(v)` and accept
unless `int` raises `ValueError`. -/
def validate_max_amount_required (v : String) : Bool :=
  v.length == 0 || (pyInt v).isSome

/-- Model construction of `_PaymentRequirements`: pydantic runs the field
validator and raises a validation error (`SchemaError`) when it rejects. -/
def mk_payment_requirements (scheme network max_amount_required resource
    description mime_type pay_to : String) (max_timeout_seconds : Int)
    (asset : String) : Except String PaymentRequirements :=
  if validate_max_amount_required max_amount_required then
    .ok { scheme := scheme, network := network,
          max_amount_required := max_amount_required, resource := resource,
          description := description, mime_type := mime_type,
          pay_to := pay_to, max_timeout_seconds := max_timeout_seconds,
          asset := asset }
  else
    .error "max_amount_required must be an integer encoded as a string"

/-- Embedding of `_DiscoveredResource` (app.py lines 60-78).  `last_updated`
is an ISO-8601 timestamp kept as a string. -/
structure DiscoveredResource where
  resource : String
  type : String
  x402_version : Int
  accepts : List PaymentRequirements
  last_updated : String
  metadata : Option String := none
deriving Repr, DecidableEq

/-- Embedding of `DiscoveryResourcesPagination` from the x402 types. -/
structure DiscoveryResourcesPagination where
  limit : Int
  offset : Int
  total : Int
deriving Repr, DecidableEq

/-- Embedding of `_ListDiscoveryResourcesResponse` (app.py lines 80-91). -/
structure ListDiscoveryResourcesResponse where
  x402_version : Int
  items : List DiscoveredResource
  pagination : DiscoveryResourcesPagination
deriving Repr, DecidableEq

/-! ## Discovery post-filter (app.py lines 166-180) -/

/-- One evaluation of the generator body
`(asset is None or payment_req.asset == asset) and
 (max_price is None or int(payment_req.max_amount_required) <= max_price)`.
Python's `and` short-circuits, so `int` only runs when the asset conjunct is
true; `none` models `int` raising `ValueError`. -/
def entryCheck (asset : Option String) (max_price : Option Int)
    (payment_req : PaymentRequirements) : Option Bool :=
  let assetOk := match asset with
    | none => true
    | some a => payment_req.asset == a
  if assetOk then
    match max_price with
    | none => some true
    | some mp => (pyInt payment_req.max_amount_required).map (fun n => decide (n ≤ mp))
  else
    some false

/-- Python's `any(...)` over the generator: short-circuits on the first
`True`, and propagates the exception of the first evaluation that raises. -/
def anyCheck (asset : Option String) (max_price : Option Int) :
    List PaymentRequirements → Option Bool
  | [] => some false
  | payment_req :: rest =>
    match entryCheck asset max_price payment_req with
    | none => none
    | some true => some true
    | some false => anyCheck asset max_price rest

/-- The `for item in services.items` loop of `discovery_resource`
(app.py lines 166-177): build `result_services`; `none` models the loop
raising `ValueError`. -/
def filterItems (asset : Option String) (max_price : Option Int) :
    List DiscoveredResource → Option (List DiscoveredResource)
  | [] => some []
  | item :: rest =>
    if asset.isNone && max_price.isNone then
      (filterItems asset max_price rest).map (item :: ·)
    else
      match anyCheck asset max_price item.accepts with
      | none => none
      | some true => (filterItems asset max_price rest).map (item :: ·)
      | some false => filterItems asset max_price rest

/-- The client-side filtering step of `discovery_resource`
(app.py lines 166-180): narrow `services.items` to `result_services` and
return the page otherwise unchanged; `none` models the tool call raising. -/
def discovery_resource_filter (services : ListDiscoveryResourcesResponse)
    (asset : Option String) (max_price : Option Int) :
    Option ListDiscoveryResourcesResponse :=
  (filterItems asset max_price services.items).map
    (fun its => { services with items := its })

/-- The claim's per-entry condition, written from the spec's words:
`(asset unset OR entry.asset == asset) AND
 (maxPrice unset OR entry.maxAmountRequired parsed as integer <= maxPrice)`. -/
def entryMatches (asset : Option String) (max_price : Option Int)
    (payment_req : PaymentRequirements) : Bool :=
  (match asset with
   | none => true
   | some a => payment_req.asset == a) &&
  (match max_price with
   | none => true
   | some mp =>
     match pyInt payment_req.max_amount_required with
     | some n => decide (n ≤ mp)
     | none => false)

/-- Retention predicate written from the claim's words: keep an item iff at
least one `accepts` entry satisfies `entryMatches`; when both filters are
unset every item is retained. -/
def spec_retain (asset : Option String) (max_price : Option Int)
    (item : DiscoveredResource) : Bool :=
  if asset.isNone && max_price.isNone then true
  else item.accepts.any (entryMatches asset max_price)

/-- All entries of an item carry an `int`-parseable `max_amount_required`. -/
def itemParseable (item : DiscoveredResource) : Bool :=
  item.accepts.all (fun payment_req => (pyInt payment_req.max_amount_required).isSome)

/-- All items of a list satisfy `itemParseable`. -/
def allParseable (items : List DiscoveredResource) : Bool :=
  items.all itemParseable

/-- The amount convention stated by the spec's data-model invariant:
empty string means zero, otherwise the parsed integer. -/
def specAmountD (s : String) : Int :=
  if s = "" then 0 else (pyInt s).getD 0

/-! ## Payment selector (app.py lines 214-231) -/

/-- Python truthiness of an optional string: `None` and `""` are falsy. -/
def pyTruthy : Option String → Bool
  | none => false
  | some s => s ≠ ""

/-- Type of a payment-requirements selector:
`(accepts, network_filter, scheme_filter, max_value)` to a chosen
requirement, `none` modelling the library raising its not-found error. -/
def Selector : Type :=
  List PaymentRequirements → Option String → Option String → Option Int →
    Option PaymentRequirements

/-- Modelled from the spec: the external library's
`x402Client.default_payment_requirements_selector` (the x402 package is not
part of this repository's sources).  Spec section 4.2: iterate `accepts` in
server order and keep the first entry for which every set filter matches,
`maxAmountRequired` being compared under the empty-string-is-zero
convention; fail with `NotFoundError` when no entry matches. -/
def default_payment_requirements_selector : Selector :=
  fun accepts network_filter scheme_filter max_value =>
    accepts.find? (fun entry =>
      (match network_filter with
       | none => true
       | some nf => entry.network == nf) &&
      (match scheme_filter with
       | none => true
       | some sf => entry.scheme == sf) &&
      (match max_value with
       | none => true
       | some mv => decide (specAmountD entry.max_amount_required ≤ mv)))

/-- Embedding of `custom_payment_selector` defined inside `call_service`
(app.py lines 214-231): when the captured `custom_network_filter` is truthy
it replaces `network_filter`, then the default selector is called; the
default selector is a parameter because it lives in the external x402
library. -/
def custom_payment_selector (defaultSel : Selector)
    (custom_network_filter : Option String) : Selector :=
  fun accepts network_filter scheme_filter max_value =>
    let nf := if pyTruthy custom_network_filter then custom_network_filter
              else network_filter
    defaultSel accepts nf scheme_filter max_value

/-! ## call_service (app.py lines 184-274) -/

/-- Model of Python's `str.startswith`: character-wise prefix test.  (The
core `String.startsWith` is byte-based and does not reduce inside the
kernel, so the embedding uses this character-list version.) -/
def pyStartswith (s p : String) : Bool :=
  s.toList.take p.toList.length == p.toList

/-- Split a character list on a separator character, keeping empty pieces,
as Python's `str.split(sep)` does. -/
def splitChars (sep : Char) : List Char → List (List Char)
  | [] => [[]]
  | c :: rest =>
    let r := splitChars sep rest
    if c = sep then [] :: r
    else
      match r with
      | [] => [[c]]
      | h :: t => (c :: h) :: t

/-- Model of Python's `str.split(sep)` for a single-character separator. -/
def pySplit (sep : Char) (s : String) : List String :=
  (splitChars sep s.toList).map String.mk

/-- Model of Python's `str.lower` (ASCII fragment). -/
def pyLower (s : String) : String :=
  String.mk (s.toList.map Char.toLower)

/-- Result of `Account.from_key`; only the address is observed. -/
structure Account where
  address : String
deriving Repr, DecidableEq

/-- Decoded `X-Payment-Response` header; `call_service` reads the
`transaction` entry of the decoded dict. -/
structure PaymentResponse where
  transaction : String
deriving Repr, DecidableEq

/-- The HTTP response observed by `call_service` after the x402 client has
finished its payment negotiation: the body read by `aread` and the
`X-Payment-Response` header when present. -/
structure HttpResponse where
  body : String
  xPaymentResponse : Option String := none
deriving Repr, DecidableEq

/-- Python exceptions distinguished by the embedding. -/
inductive PyError where
  /-- `ValueError` raised by `call_service`'s own validation code. -/
  | validationError (msg : String)
  /-- Exception raised by `Account.from_key` (unset or invalid key). -/
  | keyDerivationError
  /-- Exception raised inside `client.post`/`client.get` (payment selection,
  signing, or transport failure). -/
  | requestError
  /-- Exception raised by `decode_x_payment_response` on a malformed
  `X-Payment-Response` header. -/
  | decodeError
deriving Repr, DecidableEq

/-- Outcome of the `try` block of `call_service` (app.py lines 240-272). -/
inductive TryOutcome where
  | ok (body : String) (hash : Option String)
  | exn (e : PyError)
deriving Repr, DecidableEq

/-- Value `call_service` produces for its caller. -/
inductive CallResult where
  /-- The success dict `{"result": body, "hash": hash}`. -/
  | ok (result : String) (hash : Option String)
  /-- The structured error dict `{"error": msg}`. -/
  | errorDict (msg : String)
  /-- An exception propagating out of `call_service` to the caller. -/
  | raised (e : PyError)
deriving Repr, DecidableEq

/-- The body of the `try` block (app.py lines 240-269): dispatch on the
method, engage the transport, read the body and decode the settlement
header.  `transport` is the outcome of `client.post`/`client.get` with the
x402 payment handling inside it (`none` models it raising); `decode` models
`decode_x_payment_response` (`none` models it raising on malformed input).
The second component counts transport engagements. -/
def request_try_body (decode : String → Option PaymentResponse)
    (transport : Option HttpResponse) (method : String) : TryOutcome × Nat :=
  if pyLower method == "post" || pyLower method == "get" then
    match transport with
    | none => (.exn .requestError, 1)
    | some resp =>
      match resp.xPaymentResponse with
      | none => (.ok resp.body none, 1)
      | some header =>
        match decode header with
        | none => (.exn .decodeError, 1)
        | some payment_response =>
          (.ok resp.body (some payment_response.transaction), 1)
  else
    (.exn (.validationError ("Unsupported HTTP method: " ++ method)), 0)

/-- Default of the `X402_PRIVATE_KEY` environment lookup (app.py line 28). -/
def X402_PRIVATE_KEY_default : String := ""

/-- Embedding of the `call_service` tool body (app.py lines 184-274).
External collaborators are parameters: `fromKey` models
`Account.from_key` (`none` models it raising), `decode` models
`decode_x_payment_response`, `transport` the x402-client request outcome.
Order follows the source: key derivation first, then the resource-URL
checks (whose `raise` statements sit outside the `try` block), then the
`try` block whose exceptions are caught and turned into
`{"error": "Request failed"}`.  The second component counts transport
engagements. -/
def call_service (fromKey : String → Option Account) (private_key : String)
    (decode : String → Option PaymentResponse)
    (transport : Option HttpResponse)
    (resource : String) (method : String) : CallResult × Nat :=
  match fromKey private_key with
  | none => (.raised .keyDerivationError, 0)
  | some _account =>
    if !(pyStartswith resource "http") then
      (.raised (.validationError
        "Resource must be a valid URL starting with http or https"), 0)
    else
      let parts := pySplit '/' resource
      if parts.length < 4 then
        (.raised (.validationError "Resource URL is not valid"), 0)
      else
        let _endpoint_path := "/" ++ String.intercalate "/" (parts.drop 3)
        let _base_url := String.intercalate "/" (parts.take 3)
        match request_try_body decode transport method with
        | (.ok body hash, n) => (.ok body hash, n)
        | (.exn _, n) => (.errorDict "Request failed", n)

/-- Classifier used to state that `call_service` raised a `ValueError` from
its own input validation. -/
def isValidationRaise : CallResult → Bool
  | .raised (.validationError _) => true
  | _ => false

/-- Classifier for the structured error dict `{"error": ...}`. -/
def isErrorDict : CallResult → Bool
  | .errorDict _ => true
  | _ => false

/-- Classifier for the success dict `{"result": ..., "hash": ...}`. -/
def isOkResult : CallResult → Bool
  | .ok _ _ => true
  | _ => false

/-! ## Helper lemmas about the integer parser -/

theorem isPyWs_eq_false_of_isDigit (c : Char) (h : c.isDigit = true) :
    isPyWs c = false := by
  cases hws : isPyWs c with
  | false => rfl
  | true =>
    exfalso
    simp only [isPyWs, Bool.or_eq_true, decide_eq_true_eq, or_assoc] at hws
    rcases hws with rfl | rfl | rfl | rfl | rfl | rfl <;> exact absurd h (by decide)

theorem dropWhile_eq_self_of_false (p : Char → Bool) (l : List Char)
    (h : ∀ c ∈ l, p c = false) : l.dropWhile p = l := by
  cases l with
  | nil => rfl
  | cons c t => simp [List.dropWhile_cons, h c (List.mem_cons_self c t)]

theorem stripWs_of_digits (l : List Char) (h : l.all Char.isDigit = true) :
    stripWs l = l := by
  have hf : ∀ c ∈ l, isPyWs c = false := fun c hc =>
    isPyWs_eq_false_of_isDigit c (List.all_eq_true.mp h c hc)
  unfold stripWs
  rw [dropWhile_eq_self_of_false _ _ hf,
    dropWhile_eq_self_of_false _ _ (fun c hc => hf c (List.mem_reverse.mp hc)),
    List.reverse_reverse]

theorem digitsCore_digits (l : List Char) : ∀ acc : Nat,
    l.all Char.isDigit = true →
    digitsCore acc l = some (l.foldl (fun a c => 10 * a + (c.toNat - 48)) acc) := by
  induction l with
  | nil => intro acc _; rfl
  | cons c t ih =>
    intro acc h
    simp only [List.all_cons, Bool.and_eq_true] at h
    unfold digitsCore
    rw [if_pos h.1, List.foldl_cons]
    exact ih _ h.2

theorem digitsVal_digits (l : List Char) (hne : l ≠ [])
    (h : l.all Char.isDigit = true) :
    digitsVal l = some (decimalOfDigits l) := by
  cases l with
  | nil => exact absurd rfl hne
  | cons c t =>
    simp only [List.all_cons, Bool.and_eq_true] at h
    simp only [digitsVal]
    rw [if_pos h.1, digitsCore_digits t _ h.2]
    unfold decimalOfDigits
    rw [List.foldl_cons]
    norm_num

theorem pyInt_digits (v : String) (hne : v.toList ≠ [])
    (h : v.toList.all Char.isDigit = true) :
    pyInt v = some (Int.ofNat (decimalOfDigits v.toList)) := by
  unfold pyInt
  rw [stripWs_of_digits _ h]
  cases hl : v.toList with
  | nil => exact absurd hl hne
  | cons c t =>
    rw [hl] at h
    simp only [List.all_cons, Bool.and_eq_true] at h
    have hplus : ¬ c = '+' := by
      intro hc; rw [hc] at h; exact absurd h.1 (by decide)
    have hminus : ¬ c = '-' := by
      intro hc; rw [hc] at h; exact absurd h.1 (by decide)
    simp only [pyIntCore]
    rw [if_neg hplus, if_neg hminus,
      digitsVal_digits (c :: t) (by simp) (by simp [h.1, h.2])]
    rfl

theorem length_eq_zero_iff_empty (v : String) : v.length = 0 ↔ v = "" := by
  cases v with
  | mk data =>
    cases data with
    | nil => simp
    | cons c t =>
      simp [String.length]
      intro hcon
      exact absurd (congrArg String.data hcon) (by simp)

theorem toList_ne_nil_of_ne_empty (v : String) (h : v ≠ "") : v.toList ≠ [] := by
  intro hl
  apply h
  cases v with
  | mk data =>
    have hd : data = [] := hl
    subst hd
    rfl

/-! ## Helper lemmas about the discovery filter -/

theorem entryCheck_eq (asset : Option String) (max_price : Option Int)
    (payment_req : PaymentRequirements)
    (h : (pyInt payment_req.max_amount_required).isSome = true) :
    entryCheck asset max_price payment_req =
      some (entryMatches asset max_price payment_req) := by
  rcases hp : pyInt payment_req.max_amount_required with _ | n
  · rw [hp] at h; exact absurd h (by decide)
  · cases asset with
    | none =>
      cases max_price with
      | none => rfl
      | some mp => simp [entryCheck, entryMatches, hp]
    | some a =>
      cases hA : (payment_req.asset == a) with
      | false =>
        cases max_price with
        | none => simp [entryCheck, entryMatches, hA]
        | some mp => simp [entryCheck, entryMatches, hA]
      | true =>
        cases max_price with
        | none => simp [entryCheck, entryMatches, hA]
        | some mp => simp [entryCheck, entryMatches, hA, hp]

theorem anyCheck_eq (asset : Option String) (max_price : Option Int)
    (accepts : List PaymentRequirements)
    (h : accepts.all
      (fun payment_req => (pyInt payment_req.max_amount_required).isSome) = true) :
    anyCheck asset max_price accepts =
      some (accepts.any (entryMatches asset max_price)) := by
  induction accepts with
  | nil => rfl
  | cons payment_req rest ih =>
    simp only [List.all_cons, Bool.and_eq_true] at h
    unfold anyCheck
    rw [entryCheck_eq asset max_price payment_req h.1]
    cases hm : entryMatches asset max_price payment_req with
    | true => simp [List.any_cons, hm]
    | false => simp [List.any_cons, hm, ih h.2]

theorem filterItems_eq (asset : Option String) (max_price : Option Int)
    (items : List DiscoveredResource) (h : allParseable items = true) :
    filterItems asset max_price items =
      some (items.filter (spec_retain asset max_price)) := by
  induction items with
  | nil => rfl
  | cons item rest ih =>
    simp only [allParseable, List.all_cons, Bool.and_eq_true] at h
    have hrest : allParseable rest = true := h.2
    cases hb : (asset.isNone && max_price.isNone) with
    | true =>
      unfold filterItems
      rw [if_pos hb, ih hrest]
      simp [List.filter_cons, spec_retain, hb]
    | false =>
      unfold filterItems
      rw [if_neg (by simp [hb]),
        anyCheck_eq asset max_price item.accepts (by simpa [itemParseable] using h.1)]
      cases hm : item.accepts.any (entryMatches asset max_price) with
      | true => simp [hm, ih hrest, List.filter_cons, spec_retain, hb]
      | false => simp [hm, ih hrest, List.filter_cons, spec_retain, hb]

/-! ## Concrete sample data -/

/-- Payment requirement from the spec's worked filtering example:
asset "A", amount "100". -/
def samplePRA : PaymentRequirements :=
  { scheme := "exact", network := "base", max_amount_required := "100",
    resource := "https://svc.example/a", description := "service a",
    mime_type := "application/json", pay_to := "0xPay",
    max_timeout_seconds := 60, asset := "A" }

/-- Payment requirement from the spec's worked filtering example:
asset "B", amount "50". -/
def samplePRB : PaymentRequirements :=
  { samplePRA with
    asset := "B"
    max_amount_required := "50"
    resource := "https://svc.example/b" }

/-- Discovery item accepting only `samplePRA`. -/
def sampleItemA : DiscoveredResource :=
  { resource := "https://svc.example/a", type := "http", x402_version := 1,
    accepts := [samplePRA], last_updated := "2025-08-09T01:07:04.005Z" }

/-- Discovery item accepting only `samplePRB`. -/
def sampleItemB : DiscoveredResource :=
  { sampleItemA with
    resource := "https://svc.example/b"
    accepts := [samplePRB] }

/-- Discovery page holding the spec's two worked-example items. -/
def samplePage : ListDiscoveryResourcesResponse :=
  { x402_version := 1, items := [sampleItemA, sampleItemB],
    pagination := { limit := 100, offset := 0, total := 2 } }

/-- An `accepts` entry with the empty `maxAmountRequired` that the model
validator explicitly admits (meaning zero per the spec's invariant). -/
def emptyAmountPR : PaymentRequirements :=
  { samplePRA with max_amount_required := "" }

/-- Discovery item whose only entry has the empty amount. -/
def emptyAmountItem : DiscoveredResource :=
  { sampleItemA with accepts := [emptyAmountPR] }

/-- One-item page exercising the empty-amount entry. -/
def emptyAmountPage : ListDiscoveryResourcesResponse :=
  { x402_version := 1, items := [emptyAmountItem],
    pagination := { limit := 100, offset := 0, total := 1 } }

/-- Discovery item with an empty-amount variant of `samplePRB`, for the
empty-amount crash demonstrated on a two-item page. -/
def c7Item : DiscoveredResource :=
  { sampleItemB with accepts := [{ samplePRB with max_amount_required := "" }] }

/-- Two-item page whose second item carries the empty amount. -/
def c7Page : ListDiscoveryResourcesResponse :=
  { x402_version := 1, items := [sampleItemA, c7Item],
    pagination := { limit := 100, offset := 0, total := 2 } }

/-! ## Claim C1 -/

/-- **C1, counterexample.**  The claim says `discovery_resource` returns the
items retained by the entry predicate for every page and filter
combination.  On a page whose single item has the (validator-admitted)
empty `maxAmountRequired` — amount zero under the spec's convention, so the
claim retains the item for `maxPrice = 5` — the filtering loop instead
evaluates `int("")`, which raises `ValueError`: no page of items is
returned at all (`none`). -/
theorem C1_empty_amount_counterexample :
    specAmountD emptyAmountPR.max_amount_required = 0 ∧
    discovery_resource_filter emptyAmountPage none (some 5) = none :=
  ⟨by decide, by decide⟩

/-- **C1 (amended).**  Provided every entry of every item carries an
`int`-parseable `maxAmountRequired`, `discovery_resource` retains an item
iff at least one `accepts` entry satisfies
`(asset unset OR entry.asset == asset) AND (maxPrice unset OR parsed
amount <= maxPrice)`, and when both filters are unset every item is
retained; pages violating the proviso make the filter raise instead
(see the counterexample). -/
theorem C1_discovery_filter_correct (page : ListDiscoveryResourcesResponse)
    (asset : Option String) (max_price : Option Int)
    (h : allParseable page.items = true) :
    discovery_resource_filter page asset max_price =
      some { page with items := page.items.filter (spec_retain asset max_price) } := by
  unfold discovery_resource_filter
  rw [filterItems_eq asset max_price page.items h]
  rfl

/-- Witness for `C1_discovery_filter_correct` at the spec's worked example
with filter `asset = "A"`. -/
theorem C1_discovery_filter_correct_witness :
    allParseable samplePage.items = true ∧
    discovery_resource_filter samplePage (some "A") none =
      some { samplePage with
             items := samplePage.items.filter (spec_retain (some "A") none) } :=
  ⟨by decide, C1_discovery_filter_correct samplePage (some "A") none (by decide)⟩

/-! ## Claim C2 -/

/-- **C2, counterexample.**  The claim says model construction fails for
every string other than the empty string or a digit string.  `"-5"` is
neither, yet Python's `int("-5")` succeeds, so the validator accepts it and
construction succeeds. -/
theorem C2_signed_string_counterexample :
    (mk_payment_requirements "exact" "base" "-5" "https://svc.example/a"
      "service a" "application/json" "0xPay" 60 "A").isOk = true ∧
    "-5" ≠ "" ∧ "-5".toList.all Char.isDigit = false :=
  ⟨by decide, by decide, by decide⟩

/-- **C2 (amended).**  Model construction accepts `maxAmountRequired = v`
exactly when `v` is the empty string (meaning zero) or `v` parses under
Python's `int` (every digit string, meaning that integer, but also signed,
whitespace-padded and underscore-grouped forms such as `"-5"`); any
non-parseable string fails `SchemaError`. -/
theorem C2_validator (scheme network v resource description mime_type
    pay_to : String) (max_timeout_seconds : Int) (asset : String) :
    ((mk_payment_requirements scheme network v resource description mime_type
        pay_to max_timeout_seconds asset).isOk = true ↔
      (v = "" ∨ (pyInt v).isSome = true)) ∧
    (v ≠ "" → v.toList.all Char.isDigit = true →
      pyInt v = some (Int.ofNat (decimalOfDigits v.toList))) := by
  constructor
  · unfold mk_payment_requirements validate_max_amount_required
    by_cases h : (v.length == 0 || (pyInt v).isSome) = true
    · rw [if_pos h]
      constructor
      · intro _
        rcases Bool.or_eq_true_iff.mp h with h1 | h1
        · have h2 : v.length = 0 := by simpa using h1
          exact Or.inl ((length_eq_zero_iff_empty v).mp h2)
        · exact Or.inr h1
      · intro _; rfl
    · rw [if_neg h]
      constructor
      · intro hok
        exact absurd hok (by decide)
      · intro hv
        exfalso
        apply h
        rcases hv with rfl | hv
        · simp
        · simp [hv]
  · intro hne hdig
    exact pyInt_digits v (toList_ne_nil_of_ne_empty v hne) hdig

/-- Witness for `C2_validator` at the digit string `"17"`. -/
theorem C2_validator_witness :
    ((mk_payment_requirements "exact" "base" "17" "https://svc.example/a"
        "service a" "application/json" "0xPay" 60 "A").isOk = true ↔
      ("17" = "" ∨ (pyInt "17").isSome = true)) ∧
    pyInt "17" = some (Int.ofNat (decimalOfDigits "17".toList)) :=
  ⟨(C2_validator "exact" "base" "17" "https://svc.example/a" "service a"
      "application/json" "0xPay" 60 "A").1,
   (C2_validator "exact" "base" "17" "https://svc.example/a" "service a"
      "application/json" "0xPay" 60 "A").2 (by decide) (by decide)⟩

/-! ## Claim C7 -/

/-- **C7 (code bug).**  The model validator deliberately treats the empty
`maxAmountRequired` as zero (`0 if len(v) == 0 else int(v)`), so such
entries are constructible; but the filtering loop of `discovery_resource`
evaluates the bare `int(payment_req.max_amount_required)`, which raises
`ValueError` on the empty string, so with a set `maxPrice` the filtering
step fails instead of treating the amount as zero. -/
theorem C7_empty_amount_code_bug :
    validate_max_amount_required "" = true ∧
    (mk_payment_requirements "exact" "base" "" "https://svc.example/b"
      "service b" "application/json" "0xPay" 60 "B").isOk = true ∧
    anyCheck none (some 7) c7Item.accepts = none ∧
    discovery_resource_filter c7Page none (some 7) = none :=
  ⟨by decide, by decide, by decide, by decide⟩

/-! ## Claim C8 -/

/-- **C8 (confirmed).**  Whenever the filtering step returns a page, that
page agrees with the input page on `pagination` and on the protocol
version: only `items` is replaced. -/
theorem C8_pagination_frame (page : ListDiscoveryResourcesResponse)
    (asset : Option String) (max_price : Option Int)
    (page' : ListDiscoveryResourcesResponse)
    (h : discovery_resource_filter page asset max_price = some page') :
    page'.pagination = page.pagination ∧
    page'.x402_version = page.x402_version := by
  unfold discovery_resource_filter at h
  cases hf : filterItems asset max_price page.items with
  | none => rw [hf] at h; simp at h
  | some its =>
    rw [hf] at h
    have h' : { page with items := its } = page' := by simpa using h
    rw [← h']
    exact ⟨rfl, rfl⟩

/-- Page left after filtering the sample page with `asset = "B"`. -/
def sampleFilteredB : ListDiscoveryResourcesResponse :=
  { samplePage with items := [sampleItemB] }

/-- Witness for `C8_pagination_frame`: filtering the sample page by asset
"B" narrows `items` but returns `pagination` and the version unchanged,
even though the filtered count (1) differs from `pagination.total` (2). -/
theorem C8_pagination_frame_witness :
    discovery_resource_filter samplePage (some "B") none = some sampleFilteredB ∧
    (sampleFilteredB.pagination = samplePage.pagination ∧
     sampleFilteredB.x402_version = samplePage.x402_version) :=
  ⟨by decide,
   C8_pagination_frame samplePage (some "B") none sampleFilteredB (by decide)⟩

/-! ## Concrete collaborators for call_service -/

/-- Key derivation that succeeds (a configured signer). -/
def goodFromKey : String → Option Account := fun _ => some { address := "0xFeedFace" }

/-- Key derivation that fails (unset or invalid `X402_PRIVATE_KEY`). -/
def badFromKey : String → Option Account := fun _ => none

/-- Receipt decoder that fails on every header (models
`decode_x_payment_response` raising on malformed input). -/
def failingDecode : String → Option PaymentResponse := fun _ => none

/-! ## Claim C3 -/

/-- **C3, counterexample.**  The claim says every `call_service` failure is
returned as a structured `{error: string}` value.  But the resource-URL
checks sit outside the `try` block: on `"ftp://h/a"` the call raises
`ValueError` to the caller and no error dict is produced. -/
theorem C3_url_raise_counterexample :
    call_service goodFromKey "k" failingDecode none "ftp://h/a" "get" =
      (.raised (.validationError
        "Resource must be a valid URL starting with http or https"), 0) ∧
    isErrorDict (call_service goodFromKey "k" failingDecode none
      "ftp://h/a" "get").1 = false :=
  ⟨by decide, by decide⟩

/-- **C3 (amended).**  Failures that occur inside the request phase — the
`try` block covering method dispatch, payment selection, signing, transport
and receipt decoding — are caught and returned as
`{"error": "Request failed"}`; invalid-resource-URL failures (and key
derivation failures) instead raise to the caller. -/
theorem C3_error_dict (fromKey : String → Option Account) (private_key : String)
    (decode : String → Option PaymentResponse) (transport : Option HttpResponse)
    (resource method : String) (account : Account) (e : PyError) (n : Nat)
    (hk : fromKey private_key = some account)
    (hs : pyStartswith resource "http" = true)
    (hlen : ¬ (pySplit '/' resource).length < 4)
    (htry : request_try_body decode transport method = (.exn e, n)) :
    (call_service fromKey private_key decode transport resource method).1 =
      .errorDict "Request failed" := by
  unfold call_service
  rw [hk]
  simp [hs, hlen, htry]

/-- Witness for `C3_error_dict`: a transport failure inside the `try` block
surfaces as the structured error dict. -/
theorem C3_error_dict_witness :
    request_try_body failingDecode none "get" = (.exn .requestError, 1) ∧
    (call_service goodFromKey "k" failingDecode none "http://h/p" "get").1 =
      .errorDict "Request failed" :=
  ⟨by decide,
   C3_error_dict goodFromKey "k" failingDecode none "http://h/p" "get"
     { address := "0xFeedFace" } .requestError 1 (by decide) (by decide)
     (by decide) (by decide)⟩

/-! ## Claim C4 -/

/-- **C4 (confirmed).**  With a derivable signing key, any call whose
resource lacks the `http` prefix or splits into fewer than four
`/`-separated segments ends in a raised `ValueError` from the URL checks,
with the transport never engaged. -/
theorem C4_url_validation (fromKey : String → Option Account)
    (private_key : String) (decode : String → Option PaymentResponse)
    (transport : Option HttpResponse) (resource method : String)
    (account : Account) (hk : fromKey private_key = some account)
    (hbad : pyStartswith resource "http" = false ∨
      (pySplit '/' resource).length < 4) :
    (call_service fromKey private_key decode transport resource method).2 = 0 ∧
    isValidationRaise
      (call_service fromKey private_key decode transport resource method).1 =
      true := by
  unfold call_service
  rw [hk]
  cases hs : pyStartswith resource "http" with
  | false => simp [isValidationRaise]
  | true =>
    rcases hbad with hb | hb
    · rw [hs] at hb; cases hb
    · simp [hb, isValidationRaise]

/-- Witness for `C4_url_validation`: a three-segment URL
(`scheme://host`, no path) fails validation with zero transport calls. -/
theorem C4_url_validation_witness :
    (pySplit '/' "http://hostonly").length < 4 ∧
    ((call_service goodFromKey "k" failingDecode none "http://hostonly"
        "get").2 = 0 ∧
     isValidationRaise (call_service goodFromKey "k" failingDecode none
        "http://hostonly" "get").1 = true) :=
  ⟨by decide,
   C4_url_validation goodFromKey "k" failingDecode none "http://hostonly"
     "get" { address := "0xFeedFace" } (by decide) (Or.inr (by decide))⟩

/-! ## Claim C6 -/

/-- **C6 (confirmed).**  With a derivable key and a well-formed resource
URL, a method that lowercases to neither `"post"` nor `"get"` makes the
`try` block raise `ValueError("Unsupported HTTP method: ...")` before the
transport is engaged; the overall call returns the structured error with
zero transport calls. -/
theorem C6_method_validation (fromKey : String → Option Account)
    (private_key : String) (decode : String → Option PaymentResponse)
    (transport : Option HttpResponse) (resource method : String)
    (account : Account) (hk : fromKey private_key = some account)
    (hs : pyStartswith resource "http" = true)
    (hlen : ¬ (pySplit '/' resource).length < 4)
    (hpost : pyLower method ≠ "post") (hget : pyLower method ≠ "get") :
    request_try_body decode transport method =
      (.exn (.validationError ("Unsupported HTTP method: " ++ method)), 0) ∧
    call_service fromKey private_key decode transport resource method =
      (.errorDict "Request failed", 0) := by
  have htry : request_try_body decode transport method =
      (.exn (.validationError ("Unsupported HTTP method: " ++ method)), 0) := by
    unfold request_try_body
    have hcond : (pyLower method == "post" || pyLower method == "get") = false := by
      simp [hpost, hget]
    rw [hcond]
    simp
  refine ⟨htry, ?_⟩
  unfold call_service
  rw [hk]
  simp [hs, hlen, htry]

/-- Witness for `C6_method_validation` at method `"PUT"`, with a transport
standing ready that is never engaged. -/
theorem C6_method_validation_witness :
    pyLower "PUT" = "put" ∧
    call_service goodFromKey "k" failingDecode (some { body := "ok" })
      "http://h/a" "PUT" = (.errorDict "Request failed", 0) :=
  ⟨by decide,
   (C6_method_validation goodFromKey "k" failingDecode (some { body := "ok" })
     "http://h/a" "PUT" { address := "0xFeedFace" } (by decide) (by decide)
     (by decide) (by decide) (by decide)).2⟩

/-! ## Claim C5 -/

/-- **C5, counterexample.**  The claim says a malformed
`X-Payment-Response` header is only a decode warning and the body is still
returned.  In the code the decode exception is caught by the generic
handler: the call returns `{"error": "Request failed"}` and the body
`"ok"` is lost. -/
theorem C5_malformed_receipt_counterexample :
    failingDecode "@@@" = none ∧
    call_service goodFromKey "k" failingDecode
      (some { body := "ok", xPaymentResponse := some "@@@" })
      "http://h/p" "get" = (.errorDict "Request failed", 1) ∧
    isOkResult (call_service goodFromKey "k" failingDecode
      (some { body := "ok", xPaymentResponse := some "@@@" })
      "http://h/p" "get").1 = false :=
  ⟨by decide, by decide, by decide⟩

/-- **C5 (amended).**  When the response carries an `X-Payment-Response`
header on which the decoder raises, the exception is caught by the `try`
block's generic handler and `call_service` returns
`{"error": "Request failed"}`; the response body is not returned. -/
theorem C5_malformed_receipt (fromKey : String → Option Account)
    (private_key : String) (decode : String → Option PaymentResponse)
    (resource method body header : String) (account : Account)
    (hk : fromKey private_key = some account)
    (hs : pyStartswith resource "http" = true)
    (hlen : ¬ (pySplit '/' resource).length < 4)
    (hm : pyLower method = "post" ∨ pyLower method = "get")
    (hd : decode header = none) :
    call_service fromKey private_key decode
      (some { body := body, xPaymentResponse := some header })
      resource method = (.errorDict "Request failed", 1) := by
  have htry : request_try_body decode
      (some { body := body, xPaymentResponse := some header }) method =
      (.exn .decodeError, 1) := by
    unfold request_try_body
    have hcond : (pyLower method == "post" || pyLower method == "get") = true := by
      rcases hm with h | h <;> simp [h]
    rw [hcond]
    simp [hd]
  unfold call_service
  rw [hk]
  simp [hs, hlen, htry]

/-- Witness for `C5_malformed_receipt` on a `POST` call whose settlement
header the decoder rejects. -/
theorem C5_malformed_receipt_witness :
    failingDecode "%%%" = none ∧
    call_service goodFromKey "k" failingDecode
      (some { body := "paid-body", xPaymentResponse := some "%%%" })
      "https://api.example/pay" "POST" = (.errorDict "Request failed", 1) :=
  ⟨by decide,
   C5_malformed_receipt goodFromKey "k" failingDecode "https://api.example/pay"
     "POST" "paid-body" "%%%" { address := "0xFeedFace" } (by decide)
     (by decide) (by decide) (Or.inl (by decide)) (by decide)⟩

/-! ## Claim C10 -/

/-- **C10 (confirmed).**  `call_service` derives the account from the
process-wide key before any input validation: whenever key derivation
fails, the call raises the key-derivation error with zero transport calls,
for every resource and method, valid or not. -/
theorem C10_key_derivation_first (fromKey : String → Option Account)
    (private_key : String) (decode : String → Option PaymentResponse)
    (transport : Option HttpResponse) (resource method : String)
    (hk : fromKey private_key = none) :
    call_service fromKey private_key decode transport resource method =
      (.raised .keyDerivationError, 0) := by
  unfold call_service
  rw [hk]

/-- Witness for `C10_key_derivation_first` at the default (empty) key with
an invalid resource URL and an invalid method: the key error wins. -/
theorem C10_key_derivation_first_witness :
    badFromKey X402_PRIVATE_KEY_default = none ∧
    call_service badFromKey X402_PRIVATE_KEY_default failingDecode
      (some { body := "ok" }) "ftp://bad" "delete" =
      (.raised .keyDerivationError, 0) :=
  ⟨by decide,
   C10_key_derivation_first badFromKey X402_PRIVATE_KEY_default failingDecode
     (some { body := "ok" }) "ftp://bad" "delete" (by decide)⟩

/-! ## Claim C9 -/

/-- Requirement on the "base" network used by the selector counterexample. -/
def basePR : PaymentRequirements :=
  { samplePRA with network := "base" }

/-- **C9, counterexample.**  The claim says the network filter is replaced
whenever the caller supplied `custom_network_filter`.  Supplying the empty
string is supplying a value, but Python's truthiness test skips it: with
`accepts = [basePR]` and `network_filter = "base"`, the wrapper still
selects `basePR`, whereas the default selector under the supposedly
substituted filter `""` selects nothing. -/
theorem C9_empty_custom_counterexample :
    custom_payment_selector default_payment_requirements_selector (some "")
      [basePR] (some "base") none none = some basePR ∧
    default_payment_requirements_selector [basePR] (some "") none none =
      none :=
  ⟨by decide, by decide⟩

/-- **C9 (amended).**  For every default selector, accepts list and filter
triple, the wrapper calls the default selector on the same accepts list,
scheme filter and max value, with the network filter replaced by
`custom_network_filter` exactly when the latter is truthy (non-`None` and
non-empty); a `None` or empty custom filter leaves the network filter
unchanged. -/
theorem C9_selector_plumbing (defaultSel : Selector)
    (custom_network_filter : Option String)
    (accepts : List PaymentRequirements) (network_filter : Option String)
    (scheme_filter : Option String) (max_value : Option Int) :
    custom_payment_selector defaultSel custom_network_filter accepts
        network_filter scheme_filter max_value =
      defaultSel accepts
        (match custom_network_filter with
         | none => network_filter
         | some s => if s = "" then network_filter else some s)
        scheme_filter max_value := by
  cases custom_network_filter with
  | none => rfl
  | some s =>
    by_cases hs : s = ""
    · simp [custom_payment_selector, pyTruthy, hs]
    · simp [custom_payment_selector, pyTruthy, hs]
